import Mathlib

/-!
Verification of the layered user-service pipeline of the python-lesson
repository (the practice FastAPI subsystem).  The Python sources under
practice/fastapi are shallowly embedded: the in-memory repository's
class-level dict becomes an association list with insertion-order
semantics, the async service methods become pure functions returning
Except values over an explicit state, and str.lower / str.strip become
character-list operations (ASCII-faithful).  The entity's created_at
field is wall-clock real time and no verified property mentions it, so
it is omitted from the embedding.
-/

namespace PyFastapi

/-- Python str.lower, modelled character by character (ASCII case). -/
def pyLower (s : String) : String :=
  String.mk (s.data.map Char.toLower)

/-- Python str.strip: remove leading and trailing whitespace. -/
def pyStrip (s : String) : String :=
  String.mk (((s.data.dropWhile Char.isWhitespace).reverse.dropWhile Char.isWhitespace).reverse)

/-- Insertion-ordered association list standing for a Python dict.
Assignment d[k] = v replaces in place when the key is present and
appends otherwise, exactly the CPython insertion-order contract. -/
def dictSet {α : Type} (d : List (String × α)) (k : String) (v : α) : List (String × α) :=
  match d with
  | [] => [(k, v)]
  | (k', v') :: rest => if k' = k then (k, v) :: rest else (k', v') :: dictSet rest k v

/-- Python dict.get: the value stored under the key, if any. -/
def dictGet {α : Type} (d : List (String × α)) (k : String) : Option α :=
  match d with
  | [] => none
  | (k', v') :: rest => if k' = k then some v' else dictGet rest k

/-- Python dict.pop(k, None): remove the key when present, keeping the
order of the remaining entries. -/
def dictPop {α : Type} (d : List (String × α)) (k : String) : List (String × α) :=
  match d with
  | [] => []
  | (k', v') :: rest => if k' = k then rest else (k', v') :: dictPop rest k

/-- The UserEntity dataclass of entities/user_entity.py (id, name,
email); created_at is real-time and outside the verified properties. -/
structure UserEntity where
  id : String
  name : String
  email : String
  deriving Repr, DecidableEq

/-- The AppException base class of exceptions/custom_exceptions.py:
message, status_code, details, plus the Python class name (used by the
handler as exc.__class__.__name__). -/
structure AppException where
  message : String
  status_code : Nat
  details : List (String × String)
  etype : String
  deriving Repr, DecidableEq

/-- AppException(message, status_code=500, details=None): the base
constructor with its default status code 500 (the Internal kind). -/
def AppExceptionDefault (message : String) (details : List (String × String)) : AppException :=
  { message := message, status_code := 500, details := details, etype := "AppException" }

/-- NotFoundError(resource, identifier, details): message
"<resource> with id '<identifier>' not found", status 404. -/
def NotFoundError (resource identifier : String) (details : List (String × String)) : AppException :=
  { message := resource ++ " with id \x27" ++ identifier ++ "\x27 not found"
    status_code := 404, details := details, etype := "NotFoundError" }

/-- ValidationError(message, field=None, details=None): when the field
is truthy (present and non-empty) the message is prefixed with
"Validation error in field '<field>': "; status 422. -/
def ValidationError (message : String) (field : Option String) (details : List (String × String)) : AppException :=
  let message := match field with
    | some f => if f = "" then message else "Validation error in field \x27" ++ f ++ "\x27: " ++ message
    | none => message
  { message := message, status_code := 422, details := details, etype := "ValidationError" }

/-- ConflictError(message, details): status 409. -/
def ConflictError (message : String) (details : List (String × String)) : AppException :=
  { message := message, status_code := 409, details := details, etype := "ConflictError" }

/-- UnauthorizedError(message="Unauthorized", details): status 401. -/
def UnauthorizedError (message : String) (details : List (String × String)) : AppException :=
  { message := message, status_code := 401, details := details, etype := "UnauthorizedError" }

/-- ForbiddenError(message="Forbidden", details): status 403. -/
def ForbiddenError (message : String) (details : List (String × String)) : AppException :=
  { message := message, status_code := 403, details := details, etype := "ForbiddenError" }

/-- Modelled from the spec: utils/id_generator.py (generate_id) is not
present under src/; the spec requires only an opaque unique non-empty
string identifier, so ids are modelled as fresh strings indexed by a
per-state counter. -/
def generate_id (n : Nat) : String :=
  String.mk (List.replicate (n + 1) 'u')

instance {ε α : Type} [DecidableEq ε] [DecidableEq α] : DecidableEq (Except ε α) := fun x y =>
  match x, y with
  | .error a, .error b => decidable_of_iff (a = b) (by simp)
  | .error _, .ok _ => .isFalse (by simp)
  | .ok _, .error _ => .isFalse (by simp)
  | .ok a, .ok b => decidable_of_iff (a = b) (by simp)

/-- The repository storage: the class-level dict[str, UserEntity] of
repositories/memory_user_repo.py. -/
abbrev Storage : Type := List (String × UserEntity)

namespace InMemoryUserRepo

/-- save(user): storage[user.id] = user; return user. -/
def save (d : Storage) (user : UserEntity) : Storage × UserEntity :=
  (dictSet d user.id user, user)

/-- find(user_id): storage.get(user_id). -/
def find (d : Storage) (user_id : String) : Option UserEntity :=
  dictGet d user_id

/-- list(): list(storage.values()), in insertion order. -/
def list (d : Storage) : List UserEntity :=
  d.map Prod.snd

/-- delete(user_id): storage.pop(user_id, None). -/
def delete (d : Storage) (user_id : String) : Storage :=
  dictPop d user_id

/-- find_by_email(email): first stored user whose lower-cased email
equals the lower-cased argument. -/
def find_by_email (d : Storage) (email : String) : Option UserEntity :=
  (list d).find? (fun user => pyLower user.email == pyLower email)

end InMemoryUserRepo

/-- The service-visible state: the repository storage plus the counter
feeding the modelled id generator. -/
structure ServiceState where
  store : List (String × UserEntity)
  nextId : Nat
  deriving Repr, DecidableEq

/-- The empty repository at process start. -/
def initState : ServiceState :=
  { store := [], nextId := 0 }

namespace UserService

/-- create(name, email) of services/user_service.py: reject an email
that is empty or lacks an at-sign, reject a duplicate of an existing
email compared lower-cased (the raw input, not stripped, against the
stored values), otherwise store the entity with a fresh id, stripped
name, and lower-cased-then-stripped email. -/
def create (st : ServiceState) (name email : String) : Except AppException (ServiceState × UserEntity) :=
  if email = "" ∨ email.data.contains '@' = false then
    .error (ValidationError "Invalid email format" (some "email") [])
  else
    let existing_users := InMemoryUserRepo.list st.store
    if existing_users.any (fun user => pyLower user.email == pyLower email) then
      .error (ConflictError ("User with email \x27" ++ email ++ "\x27 already exists") [])
    else
      let user : UserEntity :=
        { id := generate_id st.nextId, name := pyStrip name, email := pyStrip (pyLower email) }
      let saved := InMemoryUserRepo.save st.store user
      .ok ({ store := saved.1, nextId := st.nextId + 1 }, saved.2)

/-- get(user_id): ValidationError on an empty id, NotFoundError when the
repository has no such id, else the stored entity. -/
def get (st : ServiceState) (user_id : String) : Except AppException UserEntity :=
  if user_id = "" then
    .error (ValidationError "User ID is required" (some "user_id") [])
  else
    match InMemoryUserRepo.find st.store user_id with
    | none => .error (NotFoundError "User" user_id [])
    | some user => .ok user

/-- list(): all stored entities, no filtering. -/
def list (st : ServiceState) : List UserEntity :=
  InMemoryUserRepo.list st.store

/-- delete(user_id): ValidationError on an empty id, NotFoundError when
absent, else remove the entity from the repository. -/
def delete (st : ServiceState) (user_id : String) : Except AppException ServiceState :=
  if user_id = "" then
    .error (ValidationError "User ID is required" (some "user_id") [])
  else
    match InMemoryUserRepo.find st.store user_id with
    | none => .error (NotFoundError "User" user_id [])
    | some _ => .ok { store := InMemoryUserRepo.delete st.store user_id, nextId := st.nextId }

end UserService

/-- validate_name of models/user_request.py (UserCreateRequest): the
transport-layer name validator, which strips the name and rejects it
when empty or shorter than 2 characters after the strip. -/
def validate_name (v : String) : Except String String :=
  let name := pyStrip v
  if name = "" then Except.error "Name cannot be empty"
  else if name.length < 2 then Except.error "Name must be at least 2 characters long"
  else Except.ok name

/-- The stored keys were all issued by strictly earlier values of the
id counter: the reachable-state invariant of the modelled generator. -/
def FreshIds (st : ServiceState) : Prop :=
  ∀ p ∈ st.store, ∃ k, k < st.nextId ∧ p.1 = generate_id k

/-- A sequential Service operation, as issued by the route handlers. -/
inductive Op where
  | create (name email : String)
  | get (id : String)
  | delete (id : String)
  | list
  deriving Repr, DecidableEq

/-- State after one Service operation; a failed operation leaves the
repository untouched (only create and delete ever write). -/
def execOp (st : ServiceState) : Op → ServiceState
  | .create n e =>
    match UserService.create st n e with
    | .ok p => p.1
    | .error _ => st
  | .get _ => st
  | .delete i =>
    match UserService.delete st i with
    | .ok st' => st'
    | .error _ => st
  | .list => st

/-- Run a sequence of operations, also logging the successfully created
entities in chronological order. -/
def runTrace (st : ServiceState) : List Op → ServiceState × List UserEntity
  | [] => (st, [])
  | .create n e :: rest =>
    match UserService.create st n e with
    | .ok p =>
      let r := runTrace p.1 rest
      (r.1, p.2 :: r.2)
    | .error _ => runTrace st rest
  | op :: rest => runTrace (execOp st op) rest

/-- The duplicate-email check of create, up to its first awaited
repository call (repo.list): true means a conflict is raised. -/
def createCheckConflict (d : Storage) (email : String) : Bool :=
  (InMemoryUserRepo.list d).any (fun user => pyLower user.email == pyLower email)

/-- The write half of create, its second awaited repository call
(repo.save) together with the entity construction between the awaits. -/
def createSaveStep (d : Storage) (name email id : String) : Storage × UserEntity :=
  InMemoryUserRepo.save d { id := id, name := pyStrip name, email := pyStrip (pyLower email) }

/-- Two concurrent create calls on an empty repository under the
interleaving check1; check2; save1; save2, which the unlocked
check-then-act of create admits because repo.list and repo.save are
separate awaited operations.  Each component Bool is that call's
success; the Storage is the final shared repository state. -/
def racyPairCreate (name1 email1 name2 email2 : String) : Bool × Bool × Storage :=
  let valid1 := !(email1 == "") && email1.data.contains '@'
  let valid2 := !(email2 == "") && email2.data.contains '@'
  let s0 : Storage := []
  let conflict1 := createCheckConflict s0 email1
  let conflict2 := createCheckConflict s0 email2
  let s1 := if valid1 && !conflict1 then (createSaveStep s0 name1 email1 (generate_id 0)).1 else s0
  let s2 := if valid2 && !conflict2 then (createSaveStep s1 name2 email2 (generate_id 1)).1 else s1
  (valid1 && !conflict1, valid2 && !conflict2, s2)

/-- The response body emitted by the exception handlers of
exceptions/handlers.py: {error: {message, type, details, trace_id}};
the general handler's body carries no details key (none). -/
structure ErrorBody where
  message : String
  etype : String
  details : Option (List (String × String))
  trace_id : String
  deriving Repr, DecidableEq

/-- A JSONResponse as produced by the exception handlers. -/
structure JSONResponse where
  status_code : Nat
  body : ErrorBody
  deriving Repr, DecidableEq

/-- app_exception_handler: an AppException becomes its own status_code
with body {error: {message, type, details, trace_id}}. -/
def app_exception_handler (exc : AppException) (tid : String) : JSONResponse :=
  { status_code := exc.status_code
    body := { message := exc.message, etype := exc.etype, details := some exc.details, trace_id := tid } }

/-- general_exception_handler: any other failure (carried here as its
message string, which the handler only logs) becomes a fixed 500
response whose body never includes anything from the failure. -/
def general_exception_handler (excMsg : String) (tid : String) : JSONResponse :=
  let _ := excMsg
  { status_code := 500
    body := { message := "Internal server error", etype := "InternalServerError", details := none, trace_id := tid } }

/-- An HTTP response as the middleware sees it: status plus headers
(a Python-dict-like header map). -/
structure HTTPResponse where
  status_code : Nat
  headers : List (String × String)
  deriving Repr, DecidableEq

/-- RequestContextMiddleware.dispatch of middleware/request_context.py:
the trace id is the inbound x-trace-id header when truthy (present and
non-empty), else a freshly generated id; both x-trace-id and
x-response-time-ms are set on the response returned by call_next
(inner), whatever its status.  The generated id and the formatted
elapsed time are real-world effects passed in as arguments. -/
def dispatch (reqHeaders : List (String × String)) (genId elapsed : String) (inner : HTTPResponse) : HTTPResponse :=
  let trace_id := match dictGet reqHeaders "x-trace-id" with
    | some s => if s = "" then genId else s
    | none => genId
  let withTrace := { inner with headers := dictSet inner.headers "x-trace-id" trace_id }
  { withTrace with headers := dictSet withTrace.headers "x-response-time-ms" elapsed }

/-- configs/context.py: get_trace_id reads the trace_id ContextVar,
whose state is modelled as Option String (none when never set in the
current execution context); the ContextVar default is "undefined". -/
def get_trace_id (ctx : Option String) : String :=
  ctx.getD "undefined"

/-- configs/context.py: set_trace_id stores a value in the ContextVar. -/
def set_trace_id (v : String) (ctx : Option String) : Option String :=
  let _ := ctx
  some v


end PyFastapi
namespace PyFastapi

theorem generate_id_ne_empty (n : Nat) : generate_id n ≠ "" := by
  intro h
  have h2 : (generate_id n).data = ("" : String).data := congrArg String.data h
  have h3 : List.replicate (n + 1) 'u' = ([] : List Char) := h2
  have h4 := congrArg List.length h3
  simp at h4

theorem generate_id_inj {m n : Nat} (h : generate_id m = generate_id n) : m = n := by
  have h2 : (generate_id m).data = (generate_id n).data := congrArg String.data h
  have h3 : List.replicate (m + 1) 'u' = List.replicate (n + 1) 'u' := h2
  have h4 := congrArg List.length h3
  simp at h4
  exact h4

theorem dictGet_dictSet_self {α : Type} (d : List (String × α)) (k : String) (v : α) :
    dictGet (dictSet d k v) k = some v := by
  induction d with
  | nil => simp [dictSet, dictGet]
  | cons p rest ih =>
    obtain ⟨k', v'⟩ := p
    by_cases h : k' = k
    · simp [dictSet, dictGet, h]
    · simp [dictSet, dictGet, h, ih]

theorem dictGet_dictSet_ne {α : Type} (d : List (String × α)) {j k : String} (v : α)
    (h : j ≠ k) : dictGet (dictSet d j v) k = dictGet d k := by
  induction d with
  | nil => simp [dictSet, dictGet, h]
  | cons p rest ih =>
    obtain ⟨k', v'⟩ := p
    by_cases hk : k' = j
    · simp [dictSet, dictGet, hk, h]
    · simp only [dictSet, if_neg hk]
      by_cases hk2 : k' = k
      · simp [dictGet, hk2]
      · simp [dictGet, hk2, ih]

theorem dictSet_eq_append {α : Type} {d : List (String × α)} {k : String} (v : α)
    (h : k ∉ d.map Prod.fst) : dictSet d k v = d ++ [(k, v)] := by
  induction d with
  | nil => rfl
  | cons p rest ih =>
    obtain ⟨k', v'⟩ := p
    simp only [List.map_cons, List.mem_cons] at h
    push_neg at h
    have hne : ¬k' = k := fun hq => h.1 hq.symm
    simp [dictSet, hne, ih h.2]

theorem dictPop_sublist {α : Type} (d : List (String × α)) (k : String) :
    (dictPop d k).Sublist d := by
  induction d with
  | nil => simp [dictPop]
  | cons p rest ih =>
    obtain ⟨k', v'⟩ := p
    by_cases h : k' = k
    · simp only [dictPop, if_pos h]
      exact List.Sublist.cons (k', v') (List.Sublist.refl rest)
    · simpa [dictPop, h] using List.Sublist.cons₂ (k', v') ih

theorem dictGet_eq_none_of_not_mem {α : Type} {d : List (String × α)} {k : String}
    (h : k ∉ d.map Prod.fst) : dictGet d k = none := by
  induction d with
  | nil => rfl
  | cons p rest ih =>
    obtain ⟨k', v'⟩ := p
    simp only [List.map_cons, List.mem_cons] at h
    push_neg at h
    have hne : ¬k' = k := fun hq => h.1 hq.symm
    simp [dictGet, hne, ih h.2]

theorem dictGet_dictPop_self {α : Type} {d : List (String × α)} (k : String)
    (h : (d.map Prod.fst).Nodup) : dictGet (dictPop d k) k = none := by
  induction d with
  | nil => rfl
  | cons p rest ih =>
    obtain ⟨k', v'⟩ := p
    simp only [List.map_cons, List.nodup_cons] at h
    by_cases hk : k' = k
    · subst hk
      simp [dictPop, dictGet_eq_none_of_not_mem h.1]
    · simp [dictPop, dictGet, hk, ih h.2]

theorem fresh_id_not_mem {st : ServiceState} (h : FreshIds st) :
    generate_id st.nextId ∉ st.store.map Prod.fst := by
  intro hmem
  obtain ⟨p, hp, hid⟩ := List.mem_map.1 hmem
  obtain ⟨k, hk, hpk⟩ := h p hp
  rw [hpk] at hid
  have hkn := generate_id_inj hid
  omega

theorem create_ok_of_valid (st : ServiceState) (name email : String)
    (h1 : email ≠ "") (h2 : email.data.contains '@' = true)
    (h3 : ∀ u ∈ InMemoryUserRepo.list st.store, pyLower u.email ≠ pyLower email) :
    UserService.create st name email =
      Except.ok
        ({ store := dictSet st.store (generate_id st.nextId)
             { id := generate_id st.nextId, name := pyStrip name, email := pyStrip (pyLower email) }
           nextId := st.nextId + 1 },
         { id := generate_id st.nextId, name := pyStrip name, email := pyStrip (pyLower email) }) := by
  have hany : (InMemoryUserRepo.list st.store).any
      (fun user => pyLower user.email == pyLower email) = false := by
    rw [List.any_eq_false]
    intro u hu
    simpa using h3 u hu
  have h2' : '@' ∈ email.data := by simpa using h2
  simp [UserService.create, h1, h2', hany, InMemoryUserRepo.save]

theorem runTrace_fresh_sublist (ops : List Op) :
    ∀ st : ServiceState, FreshIds st →
      FreshIds (runTrace st ops).1 ∧
      ((runTrace st ops).1.store.map Prod.snd).Sublist
        (st.store.map Prod.snd ++ (runTrace st ops).2) := by
  induction ops with
  | nil =>
    intro st h
    exact ⟨h, by simp [runTrace]⟩
  | cons op rest ih =>
    intro st h
    cases op with
    | get i =>
      have r := ih st h
      exact ⟨by simpa [runTrace, execOp] using r.1, by simpa [runTrace, execOp] using r.2⟩
    | list =>
      have r := ih st h
      exact ⟨by simpa [runTrace, execOp] using r.1, by simpa [runTrace, execOp] using r.2⟩
    | delete i =>
      cases hd : UserService.delete st i with
      | error e =>
        have r := ih st h
        exact ⟨by simpa [runTrace, execOp, hd] using r.1, by simpa [runTrace, execOp, hd] using r.2⟩
      | ok st' =>
        have hst' : st' = { store := dictPop st.store i, nextId := st.nextId } := by
          unfold UserService.delete at hd
          split at hd
          · simp at hd
          · split at hd
            · simp at hd
            · simpa [InMemoryUserRepo.delete] using hd.symm
        subst hst'
        have hfresh : FreshIds { store := dictPop st.store i, nextId := st.nextId } := by
          intro p hp
          exact h p ((dictPop_sublist st.store i).subset hp)
        have r := ih _ hfresh
        refine ⟨by simpa [runTrace, execOp, hd] using r.1, ?_⟩
        have hmono : (List.map Prod.snd (dictPop st.store i) ++
            (runTrace { store := dictPop st.store i, nextId := st.nextId } rest).2).Sublist
            (List.map Prod.snd st.store ++
            (runTrace { store := dictPop st.store i, nextId := st.nextId } rest).2) :=
          List.Sublist.append ((dictPop_sublist st.store i).map Prod.snd)
            (List.Sublist.refl _)
        have hout := r.2.trans hmono
        simpa [runTrace, execOp, hd] using hout
    | create n e =>
      cases hc : UserService.create st n e with
      | error err =>
        have r := ih st h
        exact ⟨by simpa [runTrace, hc] using r.1, by simpa [runTrace, hc] using r.2⟩
      | ok p =>
        have hchar : p =
            ({ store := dictSet st.store (generate_id st.nextId)
                 { id := generate_id st.nextId, name := pyStrip n, email := pyStrip (pyLower e) }
               nextId := st.nextId + 1 },
             { id := generate_id st.nextId, name := pyStrip n, email := pyStrip (pyLower e) }) := by
          by_cases hv : e = "" ∨ '@' ∉ e.data
          · simp [UserService.create, hv] at hc
          · by_cases hdup : ∃ x ∈ InMemoryUserRepo.list st.store, pyLower x.email = pyLower e
            · simp [UserService.create, hv, hdup] at hc
            · simp [UserService.create, hv, hdup, InMemoryUserRepo.save] at hc
              exact hc.symm
        subst hchar
        have happ : dictSet st.store (generate_id st.nextId)
            { id := generate_id st.nextId, name := pyStrip n, email := pyStrip (pyLower e) } =
            st.store ++ [(generate_id st.nextId,
              { id := generate_id st.nextId, name := pyStrip n, email := pyStrip (pyLower e) })] :=
          dictSet_eq_append _ (fresh_id_not_mem h)
        have hfreshA : FreshIds
            { store := st.store ++ [(generate_id st.nextId,
                { id := generate_id st.nextId, name := pyStrip n, email := pyStrip (pyLower e) })]
              nextId := st.nextId + 1 } := by
          intro q hq
          rcases List.mem_append.1 hq with hq | hq
          · obtain ⟨k, hk, hqk⟩ := h q hq
            exact ⟨k, Nat.lt_succ_of_lt hk, hqk⟩
          · simp at hq
            exact ⟨st.nextId, Nat.lt_succ_self _, by rw [hq]⟩
        constructor
        · simp only [runTrace, hc]
          rw [happ]
          exact (ih _ hfreshA).1
        · simp only [runTrace, hc]
          rw [happ]
          have r := (ih _ hfreshA).2
          simp only [List.map_append, List.append_assoc] at r
          simpa using r

end PyFastapi
namespace PyFastapi

/-- C1: the email-uniqueness invariant fails on the code.  Executing
create("Alice", "a@b.com") and then create("Bob", " a@b.com") from the
empty repository: both creates succeed (two entities are logged as
created) and the store then holds two distinct entities (different ids)
whose normalized (lower-cased, trimmed) emails are both "a@b.com",
because create compares the stored emails against the lower-cased but
un-stripped input. -/
theorem c1_duplicate_normalized_email :
    ((runTrace initState [Op.create "Alice" "a@b.com", Op.create "Bob" " a@b.com"]).2).length = 2 ∧
    (UserService.list (runTrace initState [Op.create "Alice" "a@b.com", Op.create "Bob" " a@b.com"]).1).map
      (fun u => pyStrip (pyLower u.email)) = ["a@b.com", "a@b.com"] ∧
    (UserService.list (runTrace initState [Op.create "Alice" "a@b.com", Op.create "Bob" " a@b.com"]).1).map
      UserEntity.id = [generate_id 0, generate_id 1] := by
  decide

/-- C2: under the interleaving check1; check2; save1; save2 (admitted
because create awaits repo.list and repo.save as two separate repository
operations with no critical section), two concurrent creates whose
emails differ only in case BOTH succeed, refuting exactly-one-success. -/
theorem c2_racy_create_both_succeed :
    pyLower "A@x.com" = pyLower "a@x.com" ∧ "A@x.com" ≠ "a@x.com" ∧
    racyPairCreate "Alice" "A@x.com" "Bob" "a@x.com" =
      (true, true,
       [(generate_id 0, { id := generate_id 0, name := "Alice", email := "a@x.com" }),
        (generate_id 1, { id := generate_id 1, name := "Bob", email := "a@x.com" })]) := by
  decide

/-- C3 counterexample: Service create applied to the one-character name
"x" (trimmed length 1 < 2) succeeds instead of failing with a
Validation error, so the claim as stated about Service create is false. -/
theorem c3_short_name_create_succeeds :
    (pyStrip "x").length < 2 ∧
    UserService.create initState "x" "a@b.com" =
      Except.ok ({ store := [(generate_id 0, { id := generate_id 0, name := "x", email := "a@b.com" })], nextId := 1 },
                 { id := generate_id 0, name := "x", email := "a@b.com" }) := by
  decide

/-- C3 amended: the name emptiness/length rule lives in the transport
request model (UserCreateRequest.validate_name), which fails exactly
when the trimmed name is empty or shorter than 2 characters and
otherwise returns the trimmed name; Service create itself only trims
the name and performs no name validation (it succeeds for any name once
the email checks pass, storing the trimmed name). -/
theorem c3_name_rules_live_in_request_model :
    (∀ v : String, (∃ e, validate_name v = Except.error e) ↔ (pyStrip v = "" ∨ (pyStrip v).length < 2)) ∧
    (∀ v : String, pyStrip v ≠ "" → ¬(pyStrip v).length < 2 → validate_name v = Except.ok (pyStrip v)) ∧
    (∀ (st : ServiceState) (name email : String),
       email ≠ "" → email.data.contains '@' = true →
       (∀ u ∈ InMemoryUserRepo.list st.store, pyLower u.email ≠ pyLower email) →
       ∃ p, UserService.create st name email = Except.ok p ∧ p.2.name = pyStrip name) := by
  refine ⟨?_, ?_, ?_⟩
  · intro v
    constructor
    · rintro ⟨e, he⟩
      by_cases h1 : pyStrip v = ""
      · exact Or.inl h1
      · by_cases h2 : (pyStrip v).length < 2
        · exact Or.inr h2
        · simp [validate_name, h1, h2] at he
    · intro h
      by_cases h1 : pyStrip v = ""
      · exact ⟨"Name cannot be empty", by simp [validate_name, h1]⟩
      · rcases h with h | h
        · exact absurd h h1
        · exact ⟨"Name must be at least 2 characters long", by simp [validate_name, h1, h]⟩
  · intro v h1 h2
    simp [validate_name, h1, h2]
  · intro st name email h1 h2 h3
    exact ⟨_, create_ok_of_valid st name email h1 h2 h3, rfl⟩

/-- C3 witness: the request-model validator rejects the name "x", and
Service create succeeds for name "Al", storing it trimmed. -/
theorem c3_witness :
    (∃ e, validate_name "x" = Except.error e) ∧
    (∃ p, UserService.create initState "Al" "al@x.com" = Except.ok p ∧ p.2.name = pyStrip "Al") :=
  ⟨(c3_name_rules_live_in_request_model.1 "x").mpr (Or.inr (by decide)),
   c3_name_rules_live_in_request_model.2.2 initState "Al" "al@x.com" (by decide) (by decide) (by decide)⟩

/-- C4 counterexample: for the valid input (name "Jo", email
" JO@X.com" which contains an at-sign), create succeeds and get returns
the entity, but its email "jo@x.com" is the lower-cased AND trimmed
input, not the merely lower-cased input " jo@x.com"; the claim's
"email equals the lower-cased input email" is false at this input. -/
theorem c4_lowercase_only_fails :
    (" JO@X.com" ≠ "" ∧ (" JO@X.com").data.contains '@' = true ∧
     pyStrip "Jo" ≠ "" ∧ 2 ≤ (pyStrip "Jo").length) ∧
    UserService.create initState "Jo" " JO@X.com" =
      Except.ok ({ store := [(generate_id 0, { id := generate_id 0, name := "Jo", email := "jo@x.com" })], nextId := 1 },
                 { id := generate_id 0, name := "Jo", email := "jo@x.com" }) ∧
    UserService.get { store := [(generate_id 0, { id := generate_id 0, name := "Jo", email := "jo@x.com" })], nextId := 1 }
      (generate_id 0) = Except.ok { id := generate_id 0, name := "Jo", email := "jo@x.com" } ∧
    "jo@x.com" ≠ pyLower " JO@X.com" := by
  decide

/-- C4 amended: for all valid (name, email) pairs (trimmed name
non-empty and at least 2 characters, email containing an at-sign, no
stored entity with a case-insensitively equal email), create succeeds
and get on the returned id yields an entity with a non-empty id whose
email is the lower-cased, trimmed input email. -/
theorem c4_create_then_get_normalized :
    ∀ (st : ServiceState) (name email : String),
      pyStrip name ≠ "" → 2 ≤ (pyStrip name).length →
      email ≠ "" → email.data.contains '@' = true →
      (∀ u ∈ InMemoryUserRepo.list st.store, pyLower u.email ≠ pyLower email) →
      ∃ st' u, UserService.create st name email = Except.ok (st', u) ∧
        u.id ≠ "" ∧ u.email = pyStrip (pyLower email) ∧
        UserService.get st' u.id = Except.ok u := by
  intro st name email hn1 hn2 h1 h2 h3
  refine ⟨_, _, create_ok_of_valid st name email h1 h2 h3, generate_id_ne_empty _, rfl, ?_⟩
  simp [UserService.get, InMemoryUserRepo.find, generate_id_ne_empty st.nextId, dictGet_dictSet_self]

/-- C4 witness: the amended claim instantiated at the empty repository
with name "Jo" and email "jo@x.com". -/
theorem c4_witness :
    ∃ st' u, UserService.create initState "Jo" "jo@x.com" = Except.ok (st', u) ∧
      u.id ≠ "" ∧ u.email = pyStrip (pyLower "jo@x.com") ∧
      UserService.get st' u.id = Except.ok u :=
  c4_create_then_get_normalized initState "Jo" "jo@x.com" (by decide) (by decide) (by decide)
    (by decide) (by decide)

end PyFastapi

namespace PyFastapi

/-- C5: get and delete fail with a ValidationError on an empty id and
with a NotFoundError when the id is absent (including a second delete
of the same id); a successful delete returns the state with the entity
removed, and that state is unchanged by the subsequent failing delete
(idempotent in effect, not in success signaling). -/
theorem c5_get_delete_errors :
    (∀ st : ServiceState,
       UserService.get st "" = Except.error (ValidationError "User ID is required" (some "user_id") []) ∧
       UserService.delete st "" = Except.error (ValidationError "User ID is required" (some "user_id") [])) ∧
    (∀ (st : ServiceState) (i : String), i ≠ "" → InMemoryUserRepo.find st.store i = none →
       UserService.get st i = Except.error (NotFoundError "User" i []) ∧
       UserService.delete st i = Except.error (NotFoundError "User" i [])) ∧
    (∀ (st : ServiceState) (i : String) (u : UserEntity), i ≠ "" →
       InMemoryUserRepo.find st.store i = some u → (st.store.map Prod.fst).Nodup →
       UserService.get st i = Except.ok u ∧
       UserService.delete st i =
         Except.ok { store := InMemoryUserRepo.delete st.store i, nextId := st.nextId } ∧
       UserService.delete { store := InMemoryUserRepo.delete st.store i, nextId := st.nextId } i =
         Except.error (NotFoundError "User" i []) ∧
       execOp { store := InMemoryUserRepo.delete st.store i, nextId := st.nextId } (Op.delete i) =
         { store := InMemoryUserRepo.delete st.store i, nextId := st.nextId }) := by
  refine ⟨fun st => ⟨by simp [UserService.get], by simp [UserService.delete]⟩, ?_, ?_⟩
  · intro st i hi hf
    exact ⟨by simp [UserService.get, hi, hf], by simp [UserService.delete, hi, hf]⟩
  · intro st i u hi hf hnd
    have hpop : dictGet (dictPop st.store i) i = none := dictGet_dictPop_self i hnd
    refine ⟨by simp [UserService.get, hi, hf], by simp [UserService.delete, hi, hf], ?_, ?_⟩
    · simp [UserService.delete, hi, InMemoryUserRepo.find, InMemoryUserRepo.delete, hpop]
    · simp [execOp, UserService.delete, hi, InMemoryUserRepo.find, InMemoryUserRepo.delete, hpop]

/-- C5 witness: the three paths at a concrete one-entity repository. -/
theorem c5_witness :
    UserService.get { store := [("k1", { id := "k1", name := "Ann", email := "ann@x.com" })], nextId := 3 } "" =
      Except.error (ValidationError "User ID is required" (some "user_id") []) ∧
    UserService.get { store := [("k1", { id := "k1", name := "Ann", email := "ann@x.com" })], nextId := 3 } "zz" =
      Except.error (NotFoundError "User" "zz" []) ∧
    UserService.get { store := [("k1", { id := "k1", name := "Ann", email := "ann@x.com" })], nextId := 3 } "k1" =
      Except.ok { id := "k1", name := "Ann", email := "ann@x.com" } ∧
    UserService.delete { store := [("k1", { id := "k1", name := "Ann", email := "ann@x.com" })], nextId := 3 } "k1" =
      Except.ok { store := (InMemoryUserRepo.delete
        [("k1", { id := "k1", name := "Ann", email := "ann@x.com" })] "k1"), nextId := 3 } :=
  ⟨(c5_get_delete_errors.1 _).1,
   (c5_get_delete_errors.2.1 _ "zz" (by decide) (by decide)).1,
   (c5_get_delete_errors.2.2 _ "k1" { id := "k1", name := "Ann", email := "ann@x.com" }
     (by decide) (by decide) (by decide)).1,
   (c5_get_delete_errors.2.2 _ "k1" { id := "k1", name := "Ann", email := "ann@x.com" }
     (by decide) (by decide) (by decide)).2.1⟩

/-- C6: the exception translator maps an AppException to its own
status_code with body {error: {message, type, details, trace_id}}, and
maps any other failure to a fixed 500 response with the generic message
"Internal server error", whose content is independent of the original
failure (nothing from it is echoed). -/
theorem c6_handlers_shape :
    (∀ (exc : AppException) (tid : String),
       app_exception_handler exc tid =
         { status_code := exc.status_code
           body := { message := exc.message, etype := exc.etype
                     details := some exc.details, trace_id := tid } }) ∧
    (∀ (excMsg tid : String),
       general_exception_handler excMsg tid =
         { status_code := 500
           body := { message := "Internal server error", etype := "InternalServerError"
                     details := none, trace_id := tid } }) ∧
    (∀ (m1 m2 tid : String), general_exception_handler m1 tid = general_exception_handler m2 tid) :=
  ⟨fun _ _ => rfl, fun _ _ => rfl, fun _ _ _ => rfl⟩

/-- C7: each taxonomy constructor carries its fixed transport status
(NotFound 404, Validation 422, Conflict 409, Unauthorized 401,
Forbidden 403, and the base constructor's Internal default 500);
NotFound produces exactly "<resource> with id \x27<identifier>\x27 not
found", and Validation prefixes the message with the field name when a
truthy field is given and leaves it unmodified otherwise. -/
theorem c7_taxonomy_statuses_and_messages :
    (∀ (r i : String) (d : List (String × String)),
       (NotFoundError r i d).status_code = 404 ∧
       (NotFoundError r i d).message = r ++ " with id \x27" ++ i ++ "\x27 not found") ∧
    (∀ (m : String) (f : Option String) (d : List (String × String)),
       (ValidationError m f d).status_code = 422) ∧
    (∀ (m : String) (d : List (String × String)), (ValidationError m none d).message = m) ∧
    (∀ (m f : String) (d : List (String × String)),
       (ValidationError m (some f) d).message =
         if f = "" then m else "Validation error in field \x27" ++ f ++ "\x27: " ++ m) ∧
    (∀ (m : String) (d : List (String × String)), (ConflictError m d).status_code = 409) ∧
    (∀ (m : String) (d : List (String × String)), (UnauthorizedError m d).status_code = 401) ∧
    (∀ (m : String) (d : List (String × String)), (ForbiddenError m d).status_code = 403) ∧
    (∀ (m : String) (d : List (String × String)), (AppExceptionDefault m d).status_code = 500) :=
  ⟨fun _ _ _ => ⟨rfl, rfl⟩, fun _ _ _ => rfl, fun _ _ => rfl, fun _ _ _ => rfl,
   fun _ _ => rfl, fun _ _ => rfl, fun _ _ => rfl, fun _ _ => rfl⟩

/-- C8: after any sequence of Service operations from the empty
repository, the stored entities (which list returns in full, in store
order) form a sublist of the chronological log of successfully created
entities, so list returns them in creation order however many
intervening operations failed; and the list operation itself never
mutates the state, so repeated list calls absent mutation agree. -/
theorem c8_list_insertion_order :
    (∀ ops : List Op,
       ((runTrace initState ops).1.store.map Prod.snd).Sublist (runTrace initState ops).2 ∧
       UserService.list (runTrace initState ops).1 = (runTrace initState ops).1.store.map Prod.snd) ∧
    (∀ st : ServiceState, execOp st Op.list = st ∧
       UserService.list (execOp st Op.list) = UserService.list st) := by
  constructor
  · intro ops
    have h := runTrace_fresh_sublist ops initState (by intro p hp; cases hp)
    refine ⟨?_, rfl⟩
    simpa [initState] using h.2
  · intro st
    exact ⟨rfl, rfl⟩

/-- C9: the middleware attaches an x-trace-id header to every response
it returns (whatever the inner status, success or error); the header is
non-empty, echoes the inbound x-trace-id exactly when that header is
present and non-empty, and otherwise — inbound header absent OR
supplied but empty, the falsy cases of the code's or-fallback — is
exactly the freshly generated id. -/
theorem c9_dispatch_trace_header :
    ∀ (reqHeaders : List (String × String)) (inner : HTTPResponse) (n : Nat) (elapsed : String),
      (∃ t, dictGet (dispatch reqHeaders (generate_id n) elapsed inner).headers "x-trace-id" = some t ∧ t ≠ "") ∧
      (∀ s, dictGet reqHeaders "x-trace-id" = some s → s ≠ "" →
        dictGet (dispatch reqHeaders (generate_id n) elapsed inner).headers "x-trace-id" = some s) ∧
      ((dictGet reqHeaders "x-trace-id" = none ∨ dictGet reqHeaders "x-trace-id" = some "") →
        dictGet (dispatch reqHeaders (generate_id n) elapsed inner).headers "x-trace-id" = some (generate_id n)) := by
  intro reqHeaders inner n elapsed
  have key : dictGet (dispatch reqHeaders (generate_id n) elapsed inner).headers "x-trace-id" =
      some (match dictGet reqHeaders "x-trace-id" with
            | some s => if s = "" then generate_id n else s
            | none => generate_id n) := by
    simp only [dispatch]
    rw [dictGet_dictSet_ne _ _ (by decide), dictGet_dictSet_self]
  refine ⟨?_, ?_, ?_⟩
  · cases h : dictGet reqHeaders "x-trace-id" with
    | none => exact ⟨generate_id n, by rw [key, h], generate_id_ne_empty n⟩
    | some s =>
      by_cases hs : s = ""
      · refine ⟨generate_id n, ?_, generate_id_ne_empty n⟩
        rw [key, h]
        simp [hs]
      · refine ⟨s, ?_, hs⟩
        rw [key, h]
        simp [hs]
  · intro s hsome hne
    rw [key, hsome]
    simp [hne]
  · rintro (hnone | hempty)
    · rw [key, hnone]
    · rw [key, hempty]
      simp

/-- C9 witness: an inbound x-trace-id "abc" is echoed even on a 500
response; with no inbound header, and likewise with an inbound header
supplied but empty, the generated id is used. -/
theorem c9_witness :
    dictGet (dispatch [("x-trace-id", "abc")] (generate_id 0) "1.00"
      { status_code := 500, headers := [] }).headers "x-trace-id" = some "abc" ∧
    dictGet (dispatch [] (generate_id 0) "1.00"
      { status_code := 200, headers := [] }).headers "x-trace-id" = some (generate_id 0) ∧
    dictGet (dispatch [("x-trace-id", "")] (generate_id 0) "1.00"
      { status_code := 200, headers := [] }).headers "x-trace-id" = some (generate_id 0) :=
  ⟨(c9_dispatch_trace_header [("x-trace-id", "abc")] { status_code := 500, headers := [] } 0 "1.00").2.1
     "abc" (by decide) (by decide),
   (c9_dispatch_trace_header [] { status_code := 200, headers := [] } 0 "1.00").2.2 (by decide),
   (c9_dispatch_trace_header [("x-trace-id", "")] { status_code := 200, headers := [] } 0 "1.00").2.2
     (by decide)⟩

/-- C10: with no trace id set in the current execution context,
get_trace_id returns the ContextVar default "undefined", which is not
the empty string. -/
theorem c10_trace_id_default_undefined :
    get_trace_id none = "undefined" ∧ get_trace_id none ≠ "" := by
  decide

end PyFastapi
